import Mathlib

/-!
Shallow embedding of the TNUoS tariff engine
(`tnuos_engine.py`, `scenario_manager.py`).

Conventions of the embedding:
* a pandas row becomes a `Site` record; a numeric value that may be `NaN`
  (or come from a missing column, which `row.get(..., 0)` defaults) is an
  `Option ℚ`, with `none` playing the role of `NaN`;
* machine floats are modelled as rationals; pandas `Series.round(2)` is
  modelled as round-half-to-even at two decimal places (numpy rounding);
* Python string methods `str.strip()`, `str.upper()` and
  `band.split(' ')[-1]` are modelled character-by-character (`pyStrip`,
  `pyUpper`, `pyLastSplitTok`) so the definitions stay kernel-computable;
* the three cleaned rate tables produced by the out-of-scope
  `load_and_clean_data` collaborator are an explicit `RateTables` argument,
  keyed by (year, zone) resp. (year, raw TDR-band string) — the left merges
  of `calculate_portfolio_impact` on the year-filtered, deduplicated tables
  become association-list lookups;
* NaN-propagating pandas arithmetic becomes `Option`-propagating arithmetic
  (`nanMul`, `nanAdd`): any operand `none` makes the result `none`;
* the in-place column assignments of `calculate_portfolio_impact`, and the
  `.copy()` calls that shield the caller's DataFrame from them, are
  additionally modelled by a reference store (`Store`) in which DataFrames
  live at indices and the engine's writes name an explicit index.
-/

namespace Tnuos

/-- Model of `Char` uppercasing as Python `str.upper` does for ASCII. -/
def pyCharUpper (c : Char) : Char :=
  (([('a','A'),('b','B'),('c','C'),('d','D'),('e','E'),('f','F'),('g','G'),
     ('h','H'),('i','I'),('j','J'),('k','K'),('l','L'),('m','M'),('n','N'),
     ('o','O'),('p','P'),('q','Q'),('r','R'),('s','S'),('t','T'),('u','U'),
     ('v','V'),('w','W'),('x','X'),('y','Y'),('z','Z')].lookup c).getD c)

/-- Whitespace recognised by Python `str.strip()` (the kinds that matter here). -/
def pyIsSpace (c : Char) : Bool := c == ' ' || c == '\t' || c == '\n' || c == '\r'

/-- Model of Python `str.strip()`. -/
def pyStrip (s : String) : String :=
  String.mk (((s.data.dropWhile pyIsSpace).reverse.dropWhile pyIsSpace).reverse)

/-- Model of Python `str.upper()`. -/
def pyUpper (s : String) : String := String.mk (s.data.map pyCharUpper)

/-- Model of Python `s.split(' ')[-1]`: the characters after the last space. -/
def pyLastSplitTok (s : String) : String :=
  String.mk ((s.data.reverse.takeWhile (fun c => !(c == ' '))).reverse)

/-- Site input record: one row of the portfolio DataFrame.
A `none` in a numeric field models pandas `NaN` (or an absent column). -/
structure Site where
  site_id : String
  meter_type : String
  voltage_level : String
  dno_zone : Int
  agreed_capacity_kva : Option ℚ
  annual_consumption_kwh : Option ℚ
deriving DecidableEq, Repr

/-- Round half-to-even to an integer (numpy / pandas rounding mode). -/
def roundHalfEven (q : ℚ) : ℤ :=
  if q - ⌊q⌋ < 1/2 then ⌊q⌋
  else if 1/2 < q - ⌊q⌋ then ⌊q⌋ + 1
  else if 2 ∣ ⌊q⌋ then ⌊q⌋ else ⌊q⌋ + 1

/-- Model of pandas `Series.round(2)`: round half-to-even at 2 decimals. -/
def round2 (q : ℚ) : ℚ := (roundHalfEven (q * 100) : ℚ) / 100

/-- NaN-propagating multiplication on optional rationals. -/
def nanMul (a b : Option ℚ) : Option ℚ :=
  a.bind (fun x => b.map (fun y => x * y))

/-- NaN-propagating addition on optional rationals. -/
def nanAdd (a b : Option ℚ) : Option ℚ :=
  a.bind (fun x => b.map (fun y => x + y))

/-- Embedding of `determine_tcr_band` (tnuos_engine.py lines 5-68).
The source's local variables `voltage`, `meter_type`, `capacity` and
`consumption` are inlined; `str(x).strip().upper()` is `pyUpper (pyStrip x)`,
and the `pd.isna` guards together with `row.get(..., 0)` are `Option.getD 0`. -/
def determine_tcr_band (row : Site) : String :=
  if pyUpper (pyStrip row.meter_type) = "NHH" ∨
      (pyUpper (pyStrip row.meter_type) = "HH" ∧ row.agreed_capacity_kva.getD 0 = 0) then
    if row.annual_consumption_kwh.getD 0 ≤ 3571 then "Band 1"
    else if row.annual_consumption_kwh.getD 0 ≤ 12553 then "Band 2"
    else if row.annual_consumption_kwh.getD 0 ≤ 25279 then "Band 3"
    else "Band 4"
  else if pyUpper (pyStrip row.voltage_level) = "LV" then
    if row.agreed_capacity_kva.getD 0 ≤ 80 then "Band 1"
    else if row.agreed_capacity_kva.getD 0 ≤ 150 then "Band 2"
    else if row.agreed_capacity_kva.getD 0 ≤ 231 then "Band 3"
    else "Band 4"
  else if pyUpper (pyStrip row.voltage_level) = "HV" then
    if row.agreed_capacity_kva.getD 0 ≤ 422 then "Band 1"
    else if row.agreed_capacity_kva.getD 0 ≤ 1000 then "Band 2"
    else if row.agreed_capacity_kva.getD 0 ≤ 1800 then "Band 3"
    else "Band 4"
  else if pyUpper (pyStrip row.voltage_level) = "EHV" then
    if row.agreed_capacity_kva.getD 0 ≤ 5000 then "Band 1"
    else if row.agreed_capacity_kva.getD 0 ≤ 12000 then "Band 2"
    else if row.agreed_capacity_kva.getD 0 ≤ 21500 then "Band 3"
    else "Band 4"
  else "Unclassified"

/-- Embedding of `generate_tdr_lookup_key` (tnuos_engine.py lines 70-92).
The row's `tcr_band` column is passed as the `band` argument;
`band.split(' ')[-1]` is `pyLastSplitTok band`; the Python `None` return is
`none`.  Note the source uses `.upper()` here without `.strip()`, and its
capacity test is `pd.isna(capacity) or capacity == 0`. -/
def generate_tdr_lookup_key (row : Site) (band : String) : Option String :=
  if band = "Unclassified" then none
  else if pyUpper row.meter_type = "NHH" ∨
      (pyUpper row.meter_type = "HH" ∧
        (row.agreed_capacity_kva = none ∨ row.agreed_capacity_kva = some 0)) then
    some ("LV_NoMIC_" ++ pyLastSplitTok band)
  else
    some (pyUpper row.voltage_level ++ pyLastSplitTok band)

/-- The three cleaned rate tables consumed by `calculate_portfolio_impact`:
association lists keyed by (Year_FY, Zone_No) for the locational tables and
by (Year_FY, raw TDR-band string) for the residual table, one rate per key
(the RateRepository collaborator deduplicates to the latest forecast). -/
structure RateTables where
  hh_rates : List ((Int × Int) × ℚ)
  nhh_rates : List ((Int × Int) × ℚ)
  tdr_rates : List ((Int × String) × ℚ)

/-- Locational HH rate for (target_year, dno_zone): the year filter plus the
left merge of `calculate_portfolio_impact` step d; `none` is an unmatched
merge (NaN rate). -/
def hh_rate_lookup (rt : RateTables) (year : Int) (zone : Int) : Option ℚ :=
  rt.hh_rates.lookup (year, zone)

/-- Locational NHH rate for (target_year, dno_zone), as `hh_rate_lookup`. -/
def nhh_rate_lookup (rt : RateTables) (year : Int) (zone : Int) : Option ℚ :=
  rt.nhh_rates.lookup (year, zone)

/-- Residual (TDR) rate for (target_year, TDR-band key), the left merge of
step c joining `tdr_key` against the raw column `TDR Band`. -/
def tdr_rate_lookup (rt : RateTables) (year : Int) (key : String) : Option ℚ :=
  rt.tdr_rates.lookup (year, key)

/-- Column `tdr_key` of step b. -/
def tdr_key_col (s : Site) : Option String :=
  generate_tdr_lookup_key s (determine_tcr_band s)

/-- Column `rate_residual_p_day` after the left merge of step c: a `None`
key, or a key with no row for the target year, gives NaN. -/
def rate_residual_col (rt : RateTables) (year : Int) (s : Site) : Option ℚ :=
  (tdr_key_col s).bind (tdr_rate_lookup rt year)

/-- Column `locational_rate`: initialised to `0.0`, overwritten by the HH
merge for rows with raw `meter_type == 'HH'` and by the NHH merge for rows
with raw `meter_type == 'NHH'` (an unmatched zone leaves NaN there). -/
def locational_rate_col (rt : RateTables) (year : Int) (s : Site) : Option ℚ :=
  if s.meter_type = "HH" then hh_rate_lookup rt year s.dno_zone
  else if s.meter_type = "NHH" then nhh_rate_lookup rt year s.dno_zone
  else some 0

/-- Column `locational_cost_pound` before the final `fillna(0).round(2)`:
`rate * capacity` for raw-HH rows, `rate * consumption / 100` for raw-NHH
rows, and the untouched `0.0` initialisation otherwise. -/
def locational_cost_raw_col (rt : RateTables) (year : Int) (s : Site) : Option ℚ :=
  if s.meter_type = "HH" then
    nanMul (locational_rate_col rt year s) s.agreed_capacity_kva
  else if s.meter_type = "NHH" then
    (nanMul (locational_rate_col rt year s) s.annual_consumption_kwh).map (fun x => x / 100)
  else some 0

/-- Column `residual_cost_pound` before the final `fillna(0).round(2)`:
`rate_residual_p_day * 365` (step e). -/
def residual_cost_raw_col (rt : RateTables) (year : Int) (s : Site) : Option ℚ :=
  (rate_residual_col rt year s).map (fun r => r * 365)

/-- Column `total_tnuos_cost` as first computed in step f — note the source
adds the two raw columns BEFORE their `fillna(0).round(2)` clean-up, so a NaN
in either component makes the raw total NaN. -/
def total_raw_col (rt : RateTables) (year : Int) (s : Site) : Option ℚ :=
  nanAdd (residual_cost_raw_col rt year s) (locational_cost_raw_col rt year s)

/-- One output row of `calculate_portfolio_impact`: the input columns
(untouched), the two classification columns, the merged rates, the raw cost
columns, and the three `fillna(0).round(2)` currency columns. -/
structure CostedSite where
  site : Site
  tcr_band : String
  tdr_key : Option String
  rate_residual_p_day : Option ℚ
  locational_rate : Option ℚ
  locational_cost_raw : Option ℚ
  residual_cost_raw : Option ℚ
  total_raw : Option ℚ
  locational_cost_pound : ℚ
  residual_cost_pound : ℚ
  total_tnuos_cost : ℚ
deriving DecidableEq, Repr

/-- Per-row semantics of `calculate_portfolio_impact` (tnuos_engine.py
lines 191-261): classification, key resolution, the three merges, raw costs,
and the final `fillna(0).round(2)` formatting of the currency columns. -/
def costSite (rt : RateTables) (year : Int) (s : Site) : CostedSite :=
  { site := s
    tcr_band := determine_tcr_band s
    tdr_key := tdr_key_col s
    rate_residual_p_day := rate_residual_col rt year s
    locational_rate := locational_rate_col rt year s
    locational_cost_raw := locational_cost_raw_col rt year s
    residual_cost_raw := residual_cost_raw_col rt year s
    total_raw := total_raw_col rt year s
    locational_cost_pound := round2 ((locational_cost_raw_col rt year s).getD 0)
    residual_cost_pound := round2 ((residual_cost_raw_col rt year s).getD 0)
    total_tnuos_cost := round2 ((total_raw_col rt year s).getD 0) }

/-- Row-wise semantics of `calculate_portfolio_impact` on a portfolio: the
pipeline applied row by row (all merges are row-local once the rate tables
are deduplicated per key).  This is the function's behaviour on every
NON-EMPTY portfolio; the DataFrame-level entry point including pandas'
zero-row `apply` behaviour is `calculate_portfolio_impact_df` below. -/
def calculate_portfolio_impact (rt : RateTables) (df_sites : List Site)
    (target_year : Int) : List CostedSite :=
  df_sites.map (costSite rt target_year)

/-- DataFrame-level `calculate_portfolio_impact`, including pandas'
zero-row `apply` semantics.  On a zero-row frame, `apply(..., axis=1)` goes
through `apply_empty_result`, which probes the applied function on an
all-NaN row.  The probe of `determine_tcr_band` succeeds (str(NaN) gives
"NAN", so the probe returns "Unclassified") and line 212 adds an empty
column; but the probe of `generate_tdr_lookup_key` reads the float NaN from
the empty `tcr_band` column and `band.split(' ')` raises AttributeError,
which pandas swallows, falling back to returning a copy of the whole
multi-column frame — and line 213's single-column assignment
`df_calc['tdr_key'] = ...` then raises ValueError.  (On older pandas the
probe itself raises KeyError one line earlier.)  So the call raises on an
empty portfolio; on a non-empty portfolio every stage applies row-wise. -/
def calculate_portfolio_impact_df (rt : RateTables) (df_sites : List Site)
    (target_year : Int) : Except String (List CostedSite) :=
  if df_sites.isEmpty then
    Except.error
      "ValueError: Cannot set a DataFrame with multiple columns to the single column tdr_key"
  else
    Except.ok (calculate_portfolio_impact rt df_sites target_year)

/-- The `tcr_thresholds['HH']` dictionary of
`identify_band_drop_opportunities` (scenario_manager.py lines 22-33). -/
def tcr_thresholds_hh : List (String × List (String × ℚ)) :=
  [("LV", [("Band 4", 231), ("Band 3", 150), ("Band 2", 80)]),
   ("HV", [("Band 4", 1800), ("Band 3", 1000), ("Band 2", 422)]),
   ("EHV", [("Band 4", 21500), ("Band 3", 12000), ("Band 2", 5000)])]

/-- The `tcr_thresholds['NHH']['ALL']` dictionary. -/
def tcr_thresholds_nhh_all : List (String × ℚ) :=
  [("Band 4", 25279), ("Band 3", 12553), ("Band 2", 3571)]

/-- One appended opportunity record, with the numeric payload of the
formatted strings the source builds (formatting is presentation). -/
structure Opportunity where
  site_id : String
  current_band : String
  metric_value : ℚ
  metric_unit : String
  target_val : ℚ
  reduction_needed : ℚ
  pct_reduction : ℚ
deriving DecidableEq, Repr

/-- The `metric_value` chosen in step 2 of
`identify_band_drop_opportunities`: raw-HH rows use `agreed_capacity_kva`,
raw-NHH rows use `annual_consumption_kwh`, anything else keeps the `0`
initialisation. -/
def metric_value_of (c : CostedSite) : Option ℚ :=
  if c.site.meter_type = "HH" then c.site.agreed_capacity_kva
  else if c.site.meter_type = "NHH" then c.site.annual_consumption_kwh
  else some 0

/-- The `metric_unit` chosen in step 2. -/
def metric_unit_of (c : CostedSite) : String :=
  if c.site.meter_type = "HH" then "kVA"
  else if c.site.meter_type = "NHH" then "kWh"
  else ""

/-- The `threshold_map` chosen in step 2: raw-HH rows index
`tcr_thresholds['HH']` by raw voltage (membership-guarded), raw-NHH rows get
the unified map, anything else keeps the `None` initialisation. -/
def threshold_map_of (c : CostedSite) : Option (List (String × ℚ)) :=
  if c.site.meter_type = "HH" then tcr_thresholds_hh.lookup c.site.voltage_level
  else if c.site.meter_type = "NHH" then some tcr_thresholds_nhh_all
  else none

/-- Step 3 of `identify_band_drop_opportunities` for one row: with a found
threshold map containing the current band, flag the site when
`target_val < metric_value <= target_val * 1.2` (a NaN metric fails both
Python comparisons, hence `none`). -/
def analyze_site (c : CostedSite) : Option Opportunity :=
  match threshold_map_of c with
  | none => none
  | some tm =>
    match tm.lookup c.tcr_band with
    | none => none
    | some target_val =>
      match metric_value_of c with
      | none => none
      | some mv =>
        if target_val < mv ∧ mv ≤ target_val * 1.2 then
          some { site_id := c.site.site_id
                 current_band := c.tcr_band
                 metric_value := mv
                 metric_unit := metric_unit_of c
                 target_val := target_val
                 reduction_needed := mv - target_val
                 pct_reduction := (mv - target_val) / mv * 100 }
        else none

/-- Model of pandas `DataFrame.copy()`: a value-identical snapshot, placed at
a fresh location by the store operations below. -/
def copy_df (t : List Site) : List Site := t.map id

/-- The `ScenarioModeler` object (scenario_manager.py lines 7-10): its
constructor stores `sites_df.copy()` and the year. -/
structure ScenarioModeler where
  baseline_sites : List Site
  year : Int

/-- Constructor `ScenarioModeler.__init__`. -/
def mkScenarioModeler (sites_df : List Site) (year : Int) : ScenarioModeler :=
  { baseline_sites := copy_df sites_df, year := year }

/-- Method `identify_band_drop_opportunities` (scenario_manager.py lines
12-85): cost the baseline for the stored year, then scan each costed row. -/
def identify_band_drop_opportunities (rt : RateTables) (m : ScenarioModeler) :
    List Opportunity :=
  (calculate_portfolio_impact rt m.baseline_sites m.year).filterMap analyze_site

/-- A DataFrame value living in the reference store: either a raw portfolio
table or a costed result table. -/
inductive TableVal where
  | sitesTab (t : List Site)
  | costedTab (t : List CostedSite)
deriving DecidableEq, Repr

/-- Reference store: DataFrames at indices; a Python variable holding a
DataFrame is an index into this store, so aliasing is index equality. -/
structure Store where
  tables : List TableVal
deriving DecidableEq, Repr

/-- Read the table at a reference (empty portfolio if absent or wrong kind). -/
def Store.readSites (σ : Store) (r : Nat) : List Site :=
  match σ.tables[r]? with
  | some (TableVal.sitesTab t) => t
  | _ => []

/-- Read a costed table at a reference. -/
def Store.readCosted (σ : Store) (r : Nat) : List CostedSite :=
  match σ.tables[r]? with
  | some (TableVal.costedTab t) => t
  | _ => []

/-- Allocate a fresh reference holding a table. -/
def Store.alloc (σ : Store) (t : TableVal) : Store × Nat :=
  (⟨σ.tables ++ [t]⟩, σ.tables.length)

/-- Overwrite the table at a reference (an in-place DataFrame mutation). -/
def Store.write (σ : Store) (r : Nat) (t : TableVal) : Store :=
  ⟨σ.tables.set r t⟩

/-- Store-level `calculate_portfolio_impact`: line 211 allocates
`df_calc = df_sites.copy()` at a fresh reference, and every later column
assignment and merge rebinding writes that reference only; the result
reference is returned to the caller. -/
def calculate_portfolio_impact_prog (rt : RateTables) (target_year : Int)
    (σ : Store) (sitesRef : Nat) : Store × Nat :=
  let input := σ.readSites sitesRef
  let p := σ.alloc (TableVal.sitesTab (copy_df input))
  let σ2 := (p.1).write p.2 (TableVal.costedTab (input.map (costSite rt target_year)))
  (σ2, p.2)

/-- Store-level `ScenarioModeler.__init__`: `self.baseline_sites =
sites_df.copy()` allocates a fresh reference for the copy; the modeler is the
pair (baseline reference, year). -/
def scenario_modeler_init_prog (σ : Store) (sitesRef : Nat) (year : Int) :
    Store × (Nat × Int) :=
  let p := σ.alloc (TableVal.sitesTab (copy_df (σ.readSites sitesRef)))
  (p.1, (p.2, year))

/-- Store-level `identify_band_drop_opportunities`: run the calculator on the
modeler's baseline reference and fold the per-row scan over the result. -/
def identify_prog (rt : RateTables) (σ : Store) (m : Nat × Int) :
    Store × List Opportunity :=
  let p := calculate_portfolio_impact_prog rt m.2 σ m.1
  (p.1, ((p.1).readCosted p.2).filterMap analyze_site)

/-- Concrete rate tables used by the witness instantiations (shapes as the
spec's §6 tables; one zone-12 HH rate, one zone-3 NHH rate, two residual
rows). -/
def rt_ex : RateTables :=
  { hh_rates := [((2026, 12), 15), ((2026, 1), 5)]
    nhh_rates := [((2026, 3), 2), ((2026, 1), 4)]
    tdr_rates := [((2026, "LV2"), 2), ((2026, "HV3"), 3), ((2026, "LV_NoMIC_3"), 1)] }

/-- Rate tables for the C1 counterexample: the HH table knows zone 1 for
2026, the residual table has no row at all. -/
def rt_c1 : RateTables :=
  { hh_rates := [((2026, 1), 5)], nhh_rates := [], tdr_rates := [] }

/-- Rounding a cast integer is the identity on the integer. -/
theorem roundHalfEven_intCast (n : ℤ) : roundHalfEven ((n : ℚ)) = n := by
  norm_num [roundHalfEven]

/-- Rounding a rational that is a cast integer returns it unchanged. -/
theorem round2_intCast (n : ℤ) : round2 ((n : ℚ)) = n := by
  have h : ((n : ℚ)) * 100 = (((n * 100 : ℤ)) : ℚ) := by push_cast; ring
  rw [round2, h, roundHalfEven_intCast]
  push_cast
  rw [mul_div_assoc]
  norm_num

/-- Rounding zero gives zero. -/
theorem round2_zero : round2 0 = 0 := by
  simpa using round2_intCast 0

/-- Any value a rational equals an integer cast is a `round2` fixed point. -/
theorem round2_eq_self (q : ℚ) (n : ℤ) (h : q = (n : ℚ)) : round2 q = q := by
  rw [h, round2_intCast]

/-- The output of `round2` has at most two decimal places. -/
theorem round2_mul_100_den (q : ℚ) : (round2 q * 100).den = 1 := by
  rw [round2, div_mul_cancel₀ _ (by norm_num : (100 : ℚ) ≠ 0)]
  exact Rat.den_intCast _

/-- The classifier reads each site only through the two normalised strings
and the two `getD 0` numbers. -/
theorem determine_tcr_band_congr (s t : Site)
    (hm : pyUpper (pyStrip t.meter_type) = pyUpper (pyStrip s.meter_type))
    (hv : pyUpper (pyStrip t.voltage_level) = pyUpper (pyStrip s.voltage_level))
    (hc : t.agreed_capacity_kva = s.agreed_capacity_kva)
    (hk : t.annual_consumption_kwh = s.annual_consumption_kwh) :
    determine_tcr_band t = determine_tcr_band s := by
  simp only [determine_tcr_band, hm, hv, hc, hk]

/-- On the consumption path the classifier is the NHH threshold chain. -/
theorem determine_tcr_band_consumption (s : Site)
    (h : pyUpper (pyStrip s.meter_type) = "NHH" ∨
        (pyUpper (pyStrip s.meter_type) = "HH" ∧ s.agreed_capacity_kva.getD 0 = 0)) :
    determine_tcr_band s =
      (if s.annual_consumption_kwh.getD 0 ≤ 3571 then "Band 1"
       else if s.annual_consumption_kwh.getD 0 ≤ 12553 then "Band 2"
       else if s.annual_consumption_kwh.getD 0 ≤ 25279 then "Band 3"
       else "Band 4") := by
  simp only [determine_tcr_band, if_pos h]

/-- The consumption threshold chain never yields `Unclassified`. -/
theorem consumption_chain_ne_unclassified (c : ℚ) :
    (if c ≤ 3571 then "Band 1"
     else if c ≤ 12553 then "Band 2"
     else if c ≤ 25279 then "Band 3"
     else "Band 4") ≠ "Unclassified" := by
  split_ifs <;> decide

/-- On the small-usage path the key resolver returns the `LV_NoMIC_` key. -/
theorem generate_key_nomic (s : Site) (band : String)
    (hb : band ≠ "Unclassified")
    (h : pyUpper s.meter_type = "NHH" ∨
        (pyUpper s.meter_type = "HH" ∧
          (s.agreed_capacity_kva = none ∨ s.agreed_capacity_kva = some 0))) :
    generate_tdr_lookup_key s band = some ("LV_NoMIC_" ++ pyLastSplitTok band) := by
  simp only [generate_tdr_lookup_key, if_neg hb, if_pos h]


/-- C3: `determine_tcr_band` is a function of (meter_type, voltage_level,
agreed_capacity_kva, annual_consumption_kwh) only; a site on the
NHH/small-usage path (normalised meter NHH, or HH with capacity 0) is
classified by consumption with inclusive thresholds 3571/12553/25279; every
other site with normalised voltage LV/HV/EHV is classified by capacity
against the voltage-specific inclusive thresholds (LV 80/150/231,
HV 422/1000/1800, EHV 5000/12000/21500), so a capacity exactly equal to a
threshold belongs to the lower band; NaN/missing capacity or consumption is
treated as 0. -/
theorem C3_classifier_characterisation (s : Site) :
    (∀ t : Site, t.meter_type = s.meter_type → t.voltage_level = s.voltage_level →
        t.agreed_capacity_kva = s.agreed_capacity_kva →
        t.annual_consumption_kwh = s.annual_consumption_kwh →
        determine_tcr_band t = determine_tcr_band s) ∧
    ((pyUpper (pyStrip s.meter_type) = "NHH" ∨
        (pyUpper (pyStrip s.meter_type) = "HH" ∧ s.agreed_capacity_kva.getD 0 = 0)) →
      determine_tcr_band s =
        (if s.annual_consumption_kwh.getD 0 ≤ 3571 then "Band 1"
         else if s.annual_consumption_kwh.getD 0 ≤ 12553 then "Band 2"
         else if s.annual_consumption_kwh.getD 0 ≤ 25279 then "Band 3"
         else "Band 4")) ∧
    (¬ (pyUpper (pyStrip s.meter_type) = "NHH" ∨
        (pyUpper (pyStrip s.meter_type) = "HH" ∧ s.agreed_capacity_kva.getD 0 = 0)) →
      (pyUpper (pyStrip s.voltage_level) = "LV" →
        determine_tcr_band s =
          (if s.agreed_capacity_kva.getD 0 ≤ 80 then "Band 1"
           else if s.agreed_capacity_kva.getD 0 ≤ 150 then "Band 2"
           else if s.agreed_capacity_kva.getD 0 ≤ 231 then "Band 3"
           else "Band 4")) ∧
      (pyUpper (pyStrip s.voltage_level) = "HV" →
        determine_tcr_band s =
          (if s.agreed_capacity_kva.getD 0 ≤ 422 then "Band 1"
           else if s.agreed_capacity_kva.getD 0 ≤ 1000 then "Band 2"
           else if s.agreed_capacity_kva.getD 0 ≤ 1800 then "Band 3"
           else "Band 4")) ∧
      (pyUpper (pyStrip s.voltage_level) = "EHV" →
        determine_tcr_band s =
          (if s.agreed_capacity_kva.getD 0 ≤ 5000 then "Band 1"
           else if s.agreed_capacity_kva.getD 0 ≤ 12000 then "Band 2"
           else if s.agreed_capacity_kva.getD 0 ≤ 21500 then "Band 3"
           else "Band 4"))) ∧
    (determine_tcr_band { s with agreed_capacity_kva := none } =
        determine_tcr_band { s with agreed_capacity_kva := some 0 } ∧
      determine_tcr_band { s with annual_consumption_kwh := none } =
        determine_tcr_band { s with annual_consumption_kwh := some 0 }) := by
  refine ⟨?_, ?_, ?_, ?_, ?_⟩
  · exact fun t h1 h2 h3 h4 =>
      determine_tcr_band_congr s t (by rw [h1]) (by rw [h2]) h3 h4
  · exact determine_tcr_band_consumption s
  · intro h
    refine ⟨?_, ?_, ?_⟩ <;> intro hv
    · simp only [determine_tcr_band, if_neg h, hv]
      simp
    · simp only [determine_tcr_band, if_neg h, hv]
      simp
    · simp only [determine_tcr_band, if_neg h, hv]
      simp
  · simp [determine_tcr_band]
  · simp [determine_tcr_band]

/-- C3 witness: the characterisation at an NHH site with consumption 12000
evaluates to Band 2. -/
theorem C3_witness :
    determine_tcr_band ⟨"w3", "NHH", "LV", 3, some 0, some 12000⟩ = "Band 2" := by
  rw [(C3_classifier_characterisation ⟨"w3", "NHH", "LV", 3, some 0, some 12000⟩).2.1
    (Or.inl (by decide))]
  decide

/-- C6 counterexample: a site whose meter_type is outside HH/NHH but whose
voltage is the known LV falls through to the capacity branch and receives
Band 2 — not `Unclassified` as the claim states. -/
theorem C6_counterexample :
    determine_tcr_band ⟨"c6", "SMART", "LV", 1, some 100, some 0⟩ = "Band 2" ∧
    determine_tcr_band ⟨"c6", "SMART", "LV", 1, some 100, some 0⟩ ≠ "Unclassified" := by
  decide

/-- C6 (amended): a site not on the consumption path whose normalised
voltage_level is outside LV/HV/EHV is returned as the `Unclassified` band
value (the classifier is a total function, so no exception is possible);
an unknown meter_type with a known voltage instead falls through to the
capacity branch. -/
theorem C6_unknown_voltage_unclassified (s : Site)
    (hmeter : ¬ (pyUpper (pyStrip s.meter_type) = "NHH" ∨
        (pyUpper (pyStrip s.meter_type) = "HH" ∧ s.agreed_capacity_kva.getD 0 = 0)))
    (hlv : ¬ pyUpper (pyStrip s.voltage_level) = "LV")
    (hhv : ¬ pyUpper (pyStrip s.voltage_level) = "HV")
    (hehv : ¬ pyUpper (pyStrip s.voltage_level) = "EHV") :
    determine_tcr_band s = "Unclassified" := by
  simp only [determine_tcr_band, if_neg hmeter, if_neg hlv, if_neg hhv, if_neg hehv]

/-- C6 witness: an HH site with nonzero capacity on an unknown voltage "XX"
is Unclassified. -/
theorem C6_witness :
    determine_tcr_band ⟨"w6", "HH", "XX", 1, some 100, some 0⟩ = "Unclassified" :=
  C6_unknown_voltage_unclassified ⟨"w6", "HH", "XX", 1, some 100, some 0⟩
    (by decide) (by decide) (by decide) (by decide)

/-- C8 (evaluation at the failing input): on a zero-row portfolio the
DataFrame-level calculator raises — pandas' empty-frame `apply` probe makes
`generate_tdr_lookup_key` fail and the single-column assignment of
`tdr_key` raises ValueError — instead of returning the empty result set the
claim (and spec section 7) requires; on every non-empty portfolio it
returns the row-wise costed table. -/
theorem C8_empty_portfolio_raises (rt : RateTables) (target_year : Int) :
    calculate_portfolio_impact_df rt [] target_year =
      Except.error
        "ValueError: Cannot set a DataFrame with multiple columns to the single column tdr_key" ∧
    (∀ (s : Site) (l : List Site),
        calculate_portfolio_impact_df rt (s :: l) target_year =
          Except.ok (calculate_portfolio_impact rt (s :: l) target_year)) :=
  ⟨rfl, fun _ _ => rfl⟩

/-- C5: an HH site with capacity 0 receives exactly the band of an NHH site
with the same consumption, independent of either voltage level; both resolve
to the same residual key, which is the voltage-independent
`LV_NoMIC_{bandNumber}`; and an `Unclassified` band resolves to an absent
key. -/
theorem C5_small_usage_path (id1 id2 v1 v2 : String) (z1 z2 : Int)
    (capN k : Option ℚ) :
    determine_tcr_band ⟨id1, "HH", v1, z1, some 0, k⟩ =
      determine_tcr_band ⟨id2, "NHH", v2, z2, capN, k⟩ ∧
    tdr_key_col ⟨id1, "HH", v1, z1, some 0, k⟩ =
      tdr_key_col ⟨id2, "NHH", v2, z2, capN, k⟩ ∧
    tdr_key_col ⟨id1, "HH", v1, z1, some 0, k⟩ =
      some ("LV_NoMIC_" ++
        pyLastSplitTok (determine_tcr_band ⟨id1, "HH", v1, z1, some 0, k⟩)) ∧
    (∀ s : Site, generate_tdr_lookup_key s "Unclassified" = none) := by
  have hpHH : pyUpper (pyStrip ("HH" : String)) = "NHH" ∨
      (pyUpper (pyStrip ("HH" : String)) = "HH" ∧ (Option.getD (some (0:ℚ)) 0 = 0)) :=
    Or.inr ⟨by decide, rfl⟩
  have hpNHH : pyUpper (pyStrip ("NHH" : String)) = "NHH" ∨
      (pyUpper (pyStrip ("NHH" : String)) = "HH" ∧ (Option.getD capN 0 = 0)) :=
    Or.inl (by decide)
  have hb1 := determine_tcr_band_consumption ⟨id1, "HH", v1, z1, some 0, k⟩ hpHH
  have hb2 := determine_tcr_band_consumption ⟨id2, "NHH", v2, z2, capN, k⟩ hpNHH
  have hbands : determine_tcr_band ⟨id1, "HH", v1, z1, some 0, k⟩ =
      determine_tcr_band ⟨id2, "NHH", v2, z2, capN, k⟩ := by rw [hb1, hb2]
  have hne1 : determine_tcr_band ⟨id1, "HH", v1, z1, some 0, k⟩ ≠ "Unclassified" := by
    rw [hb1]; exact consumption_chain_ne_unclassified _
  have hne2 : determine_tcr_band ⟨id2, "NHH", v2, z2, capN, k⟩ ≠ "Unclassified" := by
    rw [hb2]; exact consumption_chain_ne_unclassified _
  have hmOr1 : pyUpper ("HH" : String) = "NHH" ∨
      (pyUpper ("HH" : String) = "HH" ∧
        ((some (0:ℚ)) = none ∨ (some (0:ℚ)) = some 0)) :=
    Or.inr ⟨by decide, Or.inr rfl⟩
  have hmOr2 : pyUpper ("NHH" : String) = "NHH" ∨
      (pyUpper ("NHH" : String) = "HH" ∧ (capN = none ∨ capN = some 0)) :=
    Or.inl (by decide)
  have hk1 : tdr_key_col ⟨id1, "HH", v1, z1, some 0, k⟩ =
      some ("LV_NoMIC_" ++
        pyLastSplitTok (determine_tcr_band ⟨id1, "HH", v1, z1, some 0, k⟩)) :=
    generate_key_nomic ⟨id1, "HH", v1, z1, some 0, k⟩ _ hne1 hmOr1
  have hk2 : tdr_key_col ⟨id2, "NHH", v2, z2, capN, k⟩ =
      some ("LV_NoMIC_" ++
        pyLastSplitTok (determine_tcr_band ⟨id2, "NHH", v2, z2, capN, k⟩)) :=
    generate_key_nomic ⟨id2, "NHH", v2, z2, capN, k⟩ _ hne2 hmOr2
  refine ⟨hbands, ?_, hk1, ?_⟩
  · rw [hk1, hk2, hbands]
  · intro s
    simp [generate_tdr_lookup_key]

/-- C5 witness: the small-usage equivalence at consumption 12000 across
voltages LV and EHV, with the shared key LV_NoMIC_2. -/
theorem C5_witness :
    determine_tcr_band ⟨"wa", "HH", "EHV", 1, some 0, some 12000⟩ =
      determine_tcr_band ⟨"wb", "NHH", "LV", 2, some 7, some 12000⟩ ∧
    tdr_key_col ⟨"wa", "HH", "EHV", 1, some 0, some 12000⟩ = some "LV_NoMIC_2" := by
  have h := C5_small_usage_path "wa" "wb" "EHV" "LV" 1 2 (some 7) (some 12000)
  refine ⟨h.1, ?_⟩
  rw [h.2.2.1]
  decide

/-- C10: classification normalises its string inputs (a site whose
meter_type and voltage_level agree after strip+upper is classified
identically), while the cost calculator's locational branches compare the
raw meter_type against HH/NHH, so a site whose meter_type is not exactly one
of those keeps the initial locational rate 0.0 and locational cost 0. -/
theorem C10_normalisation_mismatch :
    (∀ s t : Site,
        pyUpper (pyStrip t.meter_type) = pyUpper (pyStrip s.meter_type) →
        pyUpper (pyStrip t.voltage_level) = pyUpper (pyStrip s.voltage_level) →
        t.agreed_capacity_kva = s.agreed_capacity_kva →
        t.annual_consumption_kwh = s.annual_consumption_kwh →
        determine_tcr_band t = determine_tcr_band s) ∧
    (∀ (rt : RateTables) (year : Int) (s : Site),
        ¬ s.meter_type = "HH" → ¬ s.meter_type = "NHH" →
        (costSite rt year s).locational_rate = some 0 ∧
        (costSite rt year s).locational_cost_pound = 0) := by
  constructor
  · exact fun s t h1 h2 h3 h4 => determine_tcr_band_congr s t h1 h2 h3 h4
  · intro rt year s h1 h2
    constructor
    · simp only [costSite, locational_rate_col, if_neg h1, if_neg h2]
    · simp only [costSite, locational_cost_raw_col, if_neg h1, if_neg h2,
        Option.getD_some]
      exact round2_zero

/-- C10 witness: a lowercase "hh" LV site classifies like the "HH" one yet
carries locational cost 0 even though its zone has an HH rate. -/
theorem C10_witness :
    determine_tcr_band ⟨"w10", " hh ", "lv", 12, some 100, some 0⟩ =
      determine_tcr_band ⟨"w10", "HH", "LV", 12, some 100, some 0⟩ ∧
    (costSite rt_ex 2026 ⟨"w10", "hh", "LV", 12, some 100, some 0⟩).locational_rate =
      some 0 ∧
    (costSite rt_ex 2026 ⟨"w10", "hh", "LV", 12, some 100, some 0⟩).locational_cost_pound =
      0 := by
  refine ⟨?_, ?_, ?_⟩
  · exact C10_normalisation_mismatch.1 ⟨"w10", "HH", "LV", 12, some 100, some 0⟩
      ⟨"w10", " hh ", "lv", 12, some 100, some 0⟩ (by decide) (by decide) rfl rfl
  · exact (C10_normalisation_mismatch.2 rt_ex 2026
      ⟨"w10", "hh", "LV", 12, some 100, some 0⟩ (by decide) (by decide)).1
  · exact (C10_normalisation_mismatch.2 rt_ex 2026
      ⟨"w10", "hh", "LV", 12, some 100, some 0⟩ (by decide) (by decide)).2

/-- Adding NaN on the right is NaN. -/
theorem nanAdd_none_right (a : Option ℚ) : nanAdd a none = none := by
  cases a <;> rfl

/-- C1 (amended): for every costed site whose two raw cost components are
both non-NaN, the reported total equals the sum of the unrounded components
rounded to 2 decimal places; a missing rate leaves NaN in its raw component,
which the final `fillna` turns into 0 for that component — but the raw total
was already NaN, so the reported total is then 0 as well rather than the
surviving component. -/
theorem C1_total_decomposition (rt : RateTables) (year : Int) (s : Site) :
    (∀ lr rr : ℚ,
        (costSite rt year s).locational_cost_raw = some lr →
        (costSite rt year s).residual_cost_raw = some rr →
        (costSite rt year s).total_tnuos_cost = round2 (lr + rr)) ∧
    ((costSite rt year s).residual_cost_raw = none →
        (costSite rt year s).residual_cost_pound = 0 ∧
        (costSite rt year s).total_tnuos_cost = 0) ∧
    ((costSite rt year s).locational_cost_raw = none →
        (costSite rt year s).locational_cost_pound = 0 ∧
        (costSite rt year s).total_tnuos_cost = 0) := by
  refine ⟨?_, ?_, ?_⟩
  · intro lr rr h1 h2
    simp only [costSite, total_raw_col] at h1 h2 ⊢
    rw [h1, h2]
    show round2 (rr + lr) = round2 (lr + rr)
    rw [add_comm]
  · intro h
    simp only [costSite, total_raw_col] at h ⊢
    rw [h]
    exact ⟨round2_zero, round2_zero⟩
  · intro h
    simp only [costSite, total_raw_col] at h ⊢
    rw [h]
    refine ⟨round2_zero, ?_⟩
    rw [nanAdd_none_right]
    exact round2_zero

/-- C1 witness: the decomposition at an LV2 HH site whose both rates exist
in `rt_ex` (locational 15 * 100, residual 2 * 365). -/
theorem C1_witness :
    (costSite rt_ex 2026 ⟨"w1", "HH", "LV", 12, some 100, some 0⟩).total_tnuos_cost =
      round2 (15 * 100 + 2 * 365) :=
  (C1_total_decomposition rt_ex 2026 ⟨"w1", "HH", "LV", 12, some 100, some 0⟩).1
    (15 * 100) (2 * 365) rfl rfl

/-- C1 counterexample: under `rt_c1` the residual table has no row for the
site's key LV2, so the raw residual is NaN; the code then reports locational
cost 500 and residual cost 0, but total cost 0 — the total is NOT the
rounded sum of the two reported components, and the missing residual rate
has zeroed more than its own component. -/
theorem C1_counterexample :
    (costSite rt_c1 2026 ⟨"cex1", "HH", "LV", 1, some 100, some 0⟩).locational_cost_pound =
      500 ∧
    (costSite rt_c1 2026 ⟨"cex1", "HH", "LV", 1, some 100, some 0⟩).residual_cost_pound =
      0 ∧
    (costSite rt_c1 2026 ⟨"cex1", "HH", "LV", 1, some 100, some 0⟩).total_tnuos_cost =
      0 ∧
    ¬ ((costSite rt_c1 2026 ⟨"cex1", "HH", "LV", 1, some 100, some 0⟩).total_tnuos_cost =
        round2 ((costSite rt_c1 2026 ⟨"cex1", "HH", "LV", 1, some 100, some 0⟩).locational_cost_pound +
          (costSite rt_c1 2026 ⟨"cex1", "HH", "LV", 1, some 100, some 0⟩).residual_cost_pound)) := by
  have hres : rate_residual_col rt_c1 2026 ⟨"cex1", "HH", "LV", 1, some 100, some 0⟩ =
      none := by decide
  have hrate : hh_rate_lookup rt_c1 2026 1 = some 5 := by decide
  have hlocrate : locational_rate_col rt_c1 2026 ⟨"cex1", "HH", "LV", 1, some 100, some 0⟩ =
      some 5 := by
    simp [locational_rate_col, hrate]
  have hloc : locational_cost_raw_col rt_c1 2026 ⟨"cex1", "HH", "LV", 1, some 100, some 0⟩ =
      some 500 := by
    simp [locational_cost_raw_col, hlocrate, nanMul]
    norm_num
  have hrraw : residual_cost_raw_col rt_c1 2026 ⟨"cex1", "HH", "LV", 1, some 100, some 0⟩ =
      none := by
    simp only [residual_cost_raw_col, hres]
    rfl
  have h500 : round2 ((500 : ℚ)) = 500 := round2_eq_self 500 500 (by norm_num)
  have hl : (costSite rt_c1 2026 ⟨"cex1", "HH", "LV", 1, some 100, some 0⟩).locational_cost_pound =
      500 := by
    simp only [costSite, hloc, Option.getD_some]
    exact h500
  have hr : (costSite rt_c1 2026 ⟨"cex1", "HH", "LV", 1, some 100, some 0⟩).residual_cost_pound =
      0 := by
    simp only [costSite, hrraw]
    exact round2_zero
  have ht : (costSite rt_c1 2026 ⟨"cex1", "HH", "LV", 1, some 100, some 0⟩).total_tnuos_cost =
      0 := by
    simp only [costSite, total_raw_col, hrraw]
    exact round2_zero
  refine ⟨hl, hr, ht, ?_⟩
  rw [hl, hr, ht]
  intro hcontra
  rw [show ((500 : ℚ) + 0) = 500 by norm_num, h500] at hcontra
  norm_num at hcontra

/-- C7: for an HH site with a matched zone rate r and capacity c, the
locational rate column is r and the locational cost is round2 (r * c); for
an NHH site with matched rate r and consumption k, the locational cost is
round2 (r * k / 100); a matched residual daily rate d gives residual cost
round2 (d * 365); and all three currency outputs have at most two decimal
places. -/
theorem C7_cost_formulas (rt : RateTables) (year : Int) (s : Site) :
    (∀ r cap : ℚ, s.meter_type = "HH" → hh_rate_lookup rt year s.dno_zone = some r →
        s.agreed_capacity_kva = some cap →
        (costSite rt year s).locational_rate = some r ∧
        (costSite rt year s).locational_cost_pound = round2 (r * cap)) ∧
    (∀ r cons : ℚ, s.meter_type = "NHH" → nhh_rate_lookup rt year s.dno_zone = some r →
        s.annual_consumption_kwh = some cons →
        (costSite rt year s).locational_cost_pound = round2 (r * cons / 100)) ∧
    (∀ d : ℚ, rate_residual_col rt year s = some d →
        (costSite rt year s).residual_cost_pound = round2 (d * 365)) ∧
    ((costSite rt year s).locational_cost_pound * 100).den = 1 ∧
    ((costSite rt year s).residual_cost_pound * 100).den = 1 ∧
    ((costSite rt year s).total_tnuos_cost * 100).den = 1 := by
  refine ⟨?_, ?_, ?_, ?_, ?_, ?_⟩
  · intro r cap hm hr hc
    have hrate : locational_rate_col rt year s = some r := by
      simp only [locational_rate_col, if_pos hm, hr]
    refine ⟨by simp only [costSite, hrate], ?_⟩
    have hraw : locational_cost_raw_col rt year s = some (r * cap) := by
      simp only [locational_cost_raw_col, if_pos hm, hrate, hc]
      rfl
    simp only [costSite, hraw, Option.getD_some]
  · intro r cons hm hr hc
    have hmm : ¬ s.meter_type = "HH" := by rw [hm]; decide
    have hrate : locational_rate_col rt year s = some r := by
      simp only [locational_rate_col, if_neg hmm, if_pos hm, hr]
    have hraw : locational_cost_raw_col rt year s = some (r * cons / 100) := by
      simp only [locational_cost_raw_col, if_neg hmm, if_pos hm, hrate, hc]
      rfl
    simp only [costSite, hraw, Option.getD_some]
  · intro d hd
    have hraw : residual_cost_raw_col rt year s = some (d * 365) := by
      simp only [residual_cost_raw_col, hd]
      rfl
    simp only [costSite, hraw, Option.getD_some]
  · exact round2_mul_100_den _
  · exact round2_mul_100_den _
  · exact round2_mul_100_den _

/-- C7 witness: the HH formula at zone 12 (rate 15, capacity 100). -/
theorem C7_witness :
    (costSite rt_ex 2026 ⟨"w7", "HH", "LV", 12, some 100, some 0⟩).locational_cost_pound =
      1500 := by
  have h := ((C7_cost_formulas rt_ex 2026 ⟨"w7", "HH", "LV", 12, some 100, some 0⟩).1
    15 100 rfl (by decide) rfl).2
  rw [h, show ((15 : ℚ) * 100) = (((1500 : ℤ)) : ℚ) by norm_num, round2_intCast]
  norm_num

/-- C4: for every costed row with a found threshold map containing the
current band (listing threshold tv) and a non-NaN metric mv, an opportunity
is reported iff tv < mv <= tv * 1.2; any reported opportunity carries
reduction mv - tv and percentage (mv - tv) / mv * 100; and a metric exactly
at the threshold yields none. -/
theorem C4_opportunity_rule (c : CostedSite) (tm : List (String × ℚ)) (tv mv : ℚ)
    (hm : threshold_map_of c = some tm)
    (hb : tm.lookup c.tcr_band = some tv)
    (hv : metric_value_of c = some mv) :
    ((analyze_site c).isSome ↔ (tv < mv ∧ mv ≤ tv * 1.2)) ∧
    (∀ o : Opportunity, analyze_site c = some o →
        o.current_band = c.tcr_band ∧ o.target_val = tv ∧ o.metric_value = mv ∧
        o.reduction_needed = mv - tv ∧ o.pct_reduction = (mv - tv) / mv * 100) ∧
    (mv = tv → analyze_site c = none) := by
  have ha : analyze_site c =
      (if tv < mv ∧ mv ≤ tv * 1.2 then
        some { site_id := c.site.site_id, current_band := c.tcr_band,
               metric_value := mv, metric_unit := metric_unit_of c, target_val := tv,
               reduction_needed := mv - tv, pct_reduction := (mv - tv) / mv * 100 }
       else none) := by
    simp only [analyze_site, hm, hb, hv]
  refine ⟨?_, ?_, ?_⟩
  · rw [ha]
    by_cases hc : tv < mv ∧ mv ≤ tv * 1.2
    · rw [if_pos hc]
      simpa using hc
    · rw [if_neg hc]
      simpa using hc
  · intro o ho
    rw [ha] at ho
    by_cases hc : tv < mv ∧ mv ≤ tv * 1.2
    · rw [if_pos hc] at ho
      rw [← Option.some.inj ho]
      exact ⟨rfl, rfl, rfl, rfl, rfl⟩
    · rw [if_neg hc] at ho
      exact absurd ho (by simp)
  · intro he
    have hnc : ¬ (tv < mv ∧ mv ≤ tv * 1.2) := by
      rintro ⟨h1, _⟩
      rw [he] at h1
      exact lt_irrefl tv h1
    rw [ha, if_neg hnc]

/-- C4 witness: the LV HH site with capacity 160 sits in Band 3 with listed
threshold 150 and is flagged since 150 < 160 <= 180. -/
theorem C4_witness :
    (analyze_site (costSite rt_ex 2026 ⟨"w4", "HH", "LV", 1, some 160, some 0⟩)).isSome := by
  refine ((C4_opportunity_rule (costSite rt_ex 2026 ⟨"w4", "HH", "LV", 1, some 160, some 0⟩)
    [("Band 4", 231), ("Band 3", 150), ("Band 2", 80)] 150 160
    (by decide) (by decide) (by decide)).1).mpr ?_
  norm_num

/-- The C2 failing input: an HH site with agreed capacity 0 and consumption
15000 (Band 3 by the consumption rule). -/
def s_c2 : Site := ⟨"cex2", "HH", "LV", 3, some 0, some 15000⟩

/-- C2 (evaluation at the failing input): the analyzer measures the HH
zero-capacity site by capacity 0 against the HH voltage map — not by
consumption against the NHH map as the claim states — so no opportunity is
reported even though the consumption metric would satisfy the NHH rule
(12553 < 15000 <= 12553 * 1.2). -/
theorem C2_code_eval :
    determine_tcr_band s_c2 = "Band 3" ∧
    metric_value_of (costSite rt_ex 2026 s_c2) = some 0 ∧
    threshold_map_of (costSite rt_ex 2026 s_c2) = tcr_thresholds_hh.lookup "LV" ∧
    analyze_site (costSite rt_ex 2026 s_c2) = none ∧
    tcr_thresholds_nhh_all.lookup "Band 3" = some 12553 ∧
    ((12553 : ℚ) < 15000 ∧ (15000 : ℚ) ≤ 12553 * 1.2) := by
  refine ⟨by decide, by decide, by decide, by decide, by decide, by norm_num⟩

/-- Frame of one engine invocation on the store: allocating a copy and
writing only the fresh reference leaves every pre-existing reference
unchanged. -/
theorem store_write_fresh_frame (σ : Store) (t t' : TableVal) (r : Nat)
    (h : r < σ.tables.length) :
    (((σ.alloc t).1.write (σ.alloc t).2 t').tables[r]? = σ.tables[r]?) := by
  simp only [Store.alloc, Store.write]
  rw [List.getElem?_set_ne (by omega)]
  exact List.getElem?_append_left h

/-- C9: the cost calculator never mutates its input — at store level all its
writes target the freshly allocated `df_calc` copy, so the caller's table is
unchanged; at value level every output row embeds the input row with every
field intact; the ScenarioModeler's constructor stores a value-equal copy at
a fresh, non-aliased reference; and running the opportunity analysis leaves
the caller's table unchanged too. -/
theorem C9_no_input_mutation (rt : RateTables) (year : Int) (σ : Store) (r : Nat)
    (h : r < σ.tables.length) :
    ((calculate_portfolio_impact_prog rt year σ r).1.tables[r]? = σ.tables[r]?) ∧
    (∀ sites : List Site,
        (calculate_portfolio_impact rt sites year).map (fun c => c.site) = sites) ∧
    ((scenario_modeler_init_prog σ r year).2.1 ≠ r ∧
      (scenario_modeler_init_prog σ r year).1.readSites
          (scenario_modeler_init_prog σ r year).2.1 =
        σ.readSites r) ∧
    ((identify_prog rt (scenario_modeler_init_prog σ r year).1
        (scenario_modeler_init_prog σ r year).2).1.tables[r]? = σ.tables[r]?) := by
  refine ⟨?_, ?_, ⟨?_, ?_⟩, ?_⟩
  · exact store_write_fresh_frame σ _ _ r h
  · intro sites
    induction sites with
    | nil => rfl
    | cons a l ih =>
      simp only [calculate_portfolio_impact, List.map_cons] at ih ⊢
      rw [ih]
      rfl
  · simp only [scenario_modeler_init_prog, Store.alloc]
    omega
  · simp only [scenario_modeler_init_prog, Store.alloc, Store.readSites,
      List.getElem?_concat_length, copy_df, List.map_id]
  · have h2 : r < ((scenario_modeler_init_prog σ r year).1).tables.length := by
      simp only [scenario_modeler_init_prog, Store.alloc, List.length_append,
        List.length_cons, List.length_nil]
      omega
    have hframe := store_write_fresh_frame (scenario_modeler_init_prog σ r year).1
      (TableVal.sitesTab (copy_df ((scenario_modeler_init_prog σ r year).1.readSites
        (scenario_modeler_init_prog σ r year).2.1)))
      (TableVal.costedTab (((scenario_modeler_init_prog σ r year).1.readSites
        (scenario_modeler_init_prog σ r year).2.1).map (costSite rt year)))
      r h2
    calc (identify_prog rt (scenario_modeler_init_prog σ r year).1
        (scenario_modeler_init_prog σ r year).2).1.tables[r]?
        = ((scenario_modeler_init_prog σ r year).1).tables[r]? := hframe
      _ = σ.tables[r]? := by
          simp only [scenario_modeler_init_prog, Store.alloc]
          exact List.getElem?_append_left h

/-- C9 witness: a one-table store is unchanged at reference 0 by a full
calculator invocation. -/
theorem C9_witness :
    (calculate_portfolio_impact_prog rt_ex 2026
        ⟨[TableVal.sitesTab [⟨"w9", "HH", "LV", 12, some 100, some 0⟩]]⟩ 0).1.tables[0]? =
      (⟨[TableVal.sitesTab [⟨"w9", "HH", "LV", 12, some 100, some 0⟩]]⟩ : Store).tables[0]? :=
  (C9_no_input_mutation rt_ex 2026
    ⟨[TableVal.sitesTab [⟨"w9", "HH", "LV", 12, some 100, some 0⟩]]⟩ 0 (by decide)).1

end Tnuos
